import Mathlib

/-!
Verification of the dirhover directional-overlay attachment.

The development shallowly embeds the TypeScript sources:
  src/lib/dirHover.utils.ts   (detectSide, getPositionFromSide,
                               createDirHoverElements, defaultOptions,
                               dirhover attach/teardown)
  src/lib/dirHover.handlers.ts (dirHoverHandler, createMouseHandler,
                               createTouchHandler)
Pointer coordinates and rectangle dimensions (JS numbers) are modelled as
rationals; JS strings as Lean String; optional values as Option.
-/

namespace DirHover

/-! ### Side detector (dirHover.utils.ts, detectSide)

The source computes x and y relative to the rect, builds the distances
object with fields left = x, right = width - x, top = y, bottom = height - y,
and reduces over its entries (insertion order: left, right, top, bottom)
starting from the accumulator left, replacing the accumulator whenever the
candidate distance is strictly smaller than the distance stored under the
accumulator key. Property access on a key outside the object would give
undefined, and a less-than comparison against undefined is false, which the
none branch mirrors. -/

/-- The distances object of detectSide, read by property name. -/
def distances (x y w h : ℚ) (side : String) : Option ℚ :=
  if side = "left" then some x
  else if side = "right" then some (w - x)
  else if side = "top" then some y
  else if side = "bottom" then some (h - y)
  else none

/-- detectSide from dirHover.utils.ts lines 3-20, with the pointer already
translated to rect-relative coordinates x, y and the rect sized w by h. -/
def detectSide (x y w h : ℚ) : String :=
  [("left", x), ("right", w - x), ("top", y), ("bottom", h - y)].foldl
    (fun closest e =>
      match distances x y w h closest with
      | some dc => if e.2 < dc then e.1 else closest
      | none => closest)
    "left"

/-- Modelled from the spec (section 4.1 and section 8): the edge whose
distance is minimal, exact ties broken in the fixed order left over right
over top over bottom. Used as the specification side of claims C1 and C9;
detectSide above is the code side. -/
def nearestEdgeSpec (x y w h : ℚ) : String :=
  if x ≤ w - x ∧ x ≤ y ∧ x ≤ h - y then "left"
  else if w - x ≤ y ∧ w - x ≤ h - y then "right"
  else if y ≤ h - y then "top"
  else "bottom"

/-! ### Position mapper (dirHover.utils.ts, getPositionFromSide)

The switch statement, including its default branch; the result pair is
(xPercent, yPercent). -/

/-- getPositionFromSide from dirHover.utils.ts lines 26-35. -/
def getPositionFromSide (side : String) : Int × Int :=
  if side = "left" then (-101, 0)
  else if side = "right" then (101, 0)
  else if side = "top" then (0, -101)
  else if side = "bottom" then (0, 101)
  else if side = "center" then (0, 0)
  else (0, 101)

/-! ### Options (dirHover.types.ts, dirHover.utils.ts defaultOptions and the
merge at the top of dirhover)

User callbacks onEnter and onLeave are modelled by presence flags; the
listener model below records an invocation step when the flag is set. -/

/-- DirectionalHoverAnimation from dirHover.types.ts. -/
structure DirectionalHoverAnimation where
  duration : ℚ
  ease : String
deriving DecidableEq

/-- DirectionalHoverOverlay from dirHover.types.ts. -/
structure DirectionalHoverOverlay where
  background : String
  opacity : ℚ
  mixBlendMode : String
deriving DecidableEq

/-- DirectionalHoverTouchPosition from dirHover.types.ts; the source field
named end is rendered «end». -/
structure DirectionalHoverTouchPosition where
  start : String
  «end» : String
deriving DecidableEq

/-- Partial animation sub-object of the user options. -/
structure UserAnimation where
  duration : Option ℚ
  ease : Option String
deriving DecidableEq

/-- Partial overlay sub-object of the user options. -/
structure UserOverlay where
  background : Option String
  opacity : Option ℚ
  mixBlendMode : Option String
deriving DecidableEq

/-- Partial touchPosition sub-object of the user options. -/
structure UserTouchPosition where
  start : Option String
  «end» : Option String
deriving DecidableEq

/-- DirectionalHoverOptions from dirHover.types.ts: every field optional;
the two callbacks are modelled as presence flags. -/
structure DirectionalHoverOptions where
  animation : Option UserAnimation
  overlay : Option UserOverlay
  touchPosition : Option UserTouchPosition
  parentAttrs : Option (List (String × String))
  childAttrs : Option (List (String × String))
  curtainAttrs : Option (List (String × String))
  parentClass : Option String
  childClass : Option String
  curtainClass : Option String
  onEnter : Bool
  onLeave : Bool
deriving DecidableEq

/-- The record shape of defaultOptions and of the merged options object. -/
structure OptionsRecord where
  animation : DirectionalHoverAnimation
  overlay : DirectionalHoverOverlay
  touchPosition : DirectionalHoverTouchPosition
deriving DecidableEq

/-- defaultOptions from dirHover.utils.ts lines 82-97. -/
def defaultOptions : OptionsRecord :=
  { animation := { duration := 0.125, ease := "power2.out" }
    overlay :=
      { background := "rgba(30, 30, 40, 0.12)"
        opacity := 1
        mixBlendMode := "normal" }
    touchPosition := { start := "bottom", «end» := "top" } }

/-- The options merge at the head of dirhover (dirHover.utils.ts lines
169-176): a shallow object spread per sub-object for animation and overlay,
and a field-wise nullish coalesce for touchPosition. A spread of an absent
sub-object contributes nothing, and an absent field of a present sub-object
leaves the default in place. -/
def mergeOptions (u : DirectionalHoverOptions) : OptionsRecord :=
  { animation :=
      { duration :=
          match u.animation with
          | none => defaultOptions.animation.duration
          | some a =>
            match a.duration with
            | none => defaultOptions.animation.duration
            | some d => d
        ease :=
          match u.animation with
          | none => defaultOptions.animation.ease
          | some a =>
            match a.ease with
            | none => defaultOptions.animation.ease
            | some e => e }
    overlay :=
      { background :=
          match u.overlay with
          | none => defaultOptions.overlay.background
          | some o =>
            match o.background with
            | none => defaultOptions.overlay.background
            | some b => b
        opacity :=
          match u.overlay with
          | none => defaultOptions.overlay.opacity
          | some o =>
            match o.opacity with
            | none => defaultOptions.overlay.opacity
            | some p => p
        mixBlendMode :=
          match u.overlay with
          | none => defaultOptions.overlay.mixBlendMode
          | some o =>
            match o.mixBlendMode with
            | none => defaultOptions.overlay.mixBlendMode
            | some m => m }
    touchPosition :=
      { start :=
          match u.touchPosition with
          | none => defaultOptions.touchPosition.start
          | some t =>
            match t.start with
            | none => defaultOptions.touchPosition.start
            | some s => s
        «end» :=
          match u.touchPosition with
          | none => defaultOptions.touchPosition.«end»
          | some t =>
            match t.«end» with
            | none => defaultOptions.touchPosition.«end»
            | some e => e } }

/-! ### DOM model (createDirHoverElements and the dirhover attach/teardown
lifecycle, dirHover.utils.ts lines 51-76 and 168-263)

Elements carry attributes, inner markup, inline style entries and a class
name. A host node content is a list of nodes; a node is either a raw markup
blob (pre-existing content, and the result of an innerHTML assignment) or
an injected element. The innerHTML getter serializes the content; the
setter replaces the content by a single raw blob holding the assigned
string, so reading back an assigned string returns it unchanged. -/

/-- An element created by createDirHoverElements. -/
structure Elem where
  tag : String
  attrs : List (String × String)
  html : String
  styles : List (String × String)
  className : Option String
deriving DecidableEq

/-- A node of the host content: raw pre-existing markup or an injected
element. -/
inductive DomNode where
  | raw (markup : String)
  | elem (e : Elem)
deriving DecidableEq

/-- setAttribute: replace the binding when the key is present, append it
otherwise. -/
def setAttr (l : List (String × String)) (k v : String) : List (String × String) :=
  if l.any (fun p => p.1 = k) then
    l.map (fun p => if p.1 = k then (k, v) else p)
  else l ++ [(k, v)]

/-- Assignment of one style property (both the CSS-variable branch and the
direct branch of the source set a single property). -/
def setStyle (l : List (String × String)) (k v : String) : List (String × String) :=
  if l.any (fun p => p.1 = k) then
    l.map (fun p => if p.1 = k then (k, v) else p)
  else l ++ [(k, v)]

/-- JS truthiness of an optional string: present and nonempty. -/
def truthy : Option String → Bool
  | none => false
  | some s => !(s = "")

/-- createDirHoverElements from dirHover.utils.ts lines 51-76. The browser
flag models the typeof window check; none models the null return. The
aria-hidden default applies when the attribute map holds no truthy
aria-hidden value and the tag is span; the tabindex re-assignment of the
source is an idempotent repeat of the attribute loop and leaves the
attribute list unchanged. -/
def createDirHoverElements (browser : Bool) (tag : String)
    (attrs : List (String × String)) (html : Option String)
    (styles : List (String × String)) (className : Option String) :
    Option Elem :=
  if browser = false then none
  else
    let el : Elem :=
      { tag := tag, attrs := [], html := "", styles := [], className := none }
    let el :=
      { el with
        attrs := attrs.foldl
          (fun a (p : String × String) => setAttr a p.1 p.2) el.attrs }
    let el :=
      if !(truthy (attrs.lookup "aria-hidden")) ∧ tag = "span" then
        { el with attrs := setAttr el.attrs "aria-hidden" "true" }
      else el
    let el :=
      match attrs.lookup "tabindex" with
      | some v => if v = "" then el else { el with attrs := setAttr el.attrs "tabindex" v }
      | none => el
    let el :=
      match html with
      | some s => if s = "" then el else { el with html := s }
      | none => el
    let el :=
      { el with
        styles := styles.foldl
          (fun st (p : String × String) => setStyle st p.1 p.2) el.styles }
    let el :=
      match className with
      | some c => if c = "" then el else { el with className := some c }
      | none => el
    some el

/-- The host element handed to the dirhover action. -/
structure HostElem where
  attrs : List (String × String)
  style : List (String × String)
  classes : List String
  content : List DomNode
  listeners : List String
deriving DecidableEq

/-- Serialization of one content node, as read back by innerHTML. -/
def serializeNode : DomNode → String
  | DomNode.raw m => m
  | DomNode.elem e => "<" ++ e.tag ++ ">" ++ e.html ++ "</" ++ e.tag ++ ">"

/-- The innerHTML getter of the host. -/
def innerHTML (n : HostElem) : String :=
  (n.content.map serializeNode).foldl (fun a b => a ++ b) ""

/-- The innerHTML setter of the host: the content becomes the assigned
markup. -/
def setInnerHTML (n : HostElem) (s : String) : HostElem :=
  { n with content := [DomNode.raw s] }

/-- classList.add. -/
def classListAdd (classes : List String) (c : String) : List String :=
  if c ∈ classes then classes else classes ++ [c]

/-- The data captured by the cleanup closure returned from the attach
function. -/
structure Teardown where
  originalContent : String
  child : Option Elem
  curtain : Option Elem
deriving DecidableEq

/-- Result of invoking the dirhover action on a node: the mutated node, the
cleanup closure when one is returned, and the initial resting offset given
to the curtain (the gsap.set of the configured touch start edge). -/
structure AttachResult where
  node : HostElem
  teardown : Option Teardown
  initialOffset : Option (Int × Int)
deriving DecidableEq

/-- The four listener names registered by the attach function. -/
def dirhoverEvents : List String :=
  ["mouseenter", "mouseleave", "touchstart", "touchend"]

/-- The parent mutations at the head of the dirhover action
(dirHover.utils.ts lines 182-188): the data-dirhover attribute, the forced
position and overflow styles, the optional parent class and the optional
parent attributes. -/
def prepareParent (userOptions : DirectionalHoverOptions) (node : HostElem) :
    HostElem :=
  let node := { node with attrs := setAttr node.attrs "data-dirhover" "parent" }
  let node :=
    { node with
      style := setStyle (setStyle node.style "position" "relative") "overflow" "hidden" }
  let node :=
    match userOptions.parentClass with
    | some c => if c = "" then node else { node with classes := classListAdd node.classes c }
    | none => node
  match userOptions.parentAttrs with
  | some l => { node with attrs := l.foldl (fun a (p : String × String) => setAttr a p.1 p.2) node.attrs }
  | none => node

/-- The action returned by dirhover (dirHover.utils.ts lines 178-251): the
SSR guard, the parent mutations, the snapshot of the inner markup, the
construction of the child and curtain elements, the content replacement and
the listener registrations. -/
def dirhoverAttach (browser : Bool) (userOptions : DirectionalHoverOptions)
    (node : HostElem) : AttachResult :=
  if browser = false then
    { node := node, teardown := none, initialOffset := none }
  else
    let options := mergeOptions userOptions
    let node := prepareParent userOptions node
    let originalContent := innerHTML node
    let child :=
      createDirHoverElements browser "span"
        ([("data-dirhover", "child")] ++ (userOptions.childAttrs.getD []))
        (some originalContent)
        [("position", "relative"), ("zIndex", "1")]
        userOptions.childClass
    let overlayStyles : List (String × String) :=
      [("position", "absolute"), ("width", "100%"), ("height", "100%"),
       ("inset", "0"),
       ("background", "var(--dirhover-overlay-bg, " ++ options.overlay.background ++ ")"),
       ("opacity", toString options.overlay.opacity),
       ("mixBlendMode", options.overlay.mixBlendMode)]
    let curtain :=
      createDirHoverElements browser "span"
        ([("data-dirhover", "overlay"), ("aria-hidden", "true")] ++
          (userOptions.curtainAttrs.getD []))
        none overlayStyles userOptions.curtainClass
    let initialOffset :=
      match curtain with
      | some _ => some (getPositionFromSide options.touchPosition.start)
      | none => none
    let node := { node with content := [] }
    let node :=
      match curtain with
      | some c => { node with content := node.content ++ [DomNode.elem c] }
      | none => node
    let node :=
      match child with
      | some c => { node with content := node.content ++ [DomNode.elem c] }
      | none => node
    let node := { node with listeners := node.listeners ++ dirhoverEvents }
    { node := node
      teardown := some { originalContent := originalContent, child := child, curtain := curtain }
      initialOffset := initialOffset }

/-- removeChild of the DOM: removes the given element from the content, and
throws NotFoundError when the element is not a child. -/
def removeChild (content : List DomNode) (e : Elem) :
    Except String (List DomNode) :=
  if DomNode.elem e ∈ content then Except.ok (content.erase (DomNode.elem e))
  else Except.error "NotFoundError"

/-- The guarded removal of the cleanup closure: remove the element only
when it exists and the host still contains it. -/
def removeIfContains (content : List DomNode) (e : Option Elem) :
    Except String (List DomNode) :=
  match e with
  | none => Except.ok content
  | some c =>
    if DomNode.elem c ∈ content then removeChild content c
    else Except.ok content

/-- The cleanup closure returned by the attach function (dirHover.utils.ts
lines 253-263): remove the four listeners, remove the injected child and
curtain when still present, then restore the snapshot through the
innerHTML setter. The tween-table deletion it also performs lives in the
tween model below. -/
def runTeardown (td : Teardown) (node : HostElem) : Except String HostElem :=
  let node :=
    { node with
      listeners :=
        ((((node.listeners.erase "mouseenter").erase "mouseleave").erase
          "touchstart").erase "touchend") }
  match removeIfContains node.content td.child with
  | Except.error e => Except.error e
  | Except.ok cs1 =>
    match removeIfContains cs1 td.curtain with
    | Except.error e => Except.error e
    | Except.ok cs2 =>
      Except.ok (setInnerHTML { node with content := cs2 } td.originalContent)

/-! ### Animation handler (dirHover.handlers.ts, dirHoverHandler and the
listener objects of the attach function)

The tween table is keyed by the curtain element; for one curtain its state
is the optional stored handle. A tween handle records the identity of the
engine tween, whether it was created as an in or an out tween, and its
current completion callback. The completion callbacks the source installs
are closed over either nothing (delete the table entry) or the out target
position (start the out tween, store it, and have it delete the entry on
its own completion); they are represented symbolically so that firing a
completion replays exactly the source callback body. Calls into the
animation engine are recorded in order in a trace. -/

/-- How a tween was created. -/
inductive TweenKind where
  | animIn
  | animOut
deriving DecidableEq

/-- The completion callback currently installed on a tween. -/
inductive CompleteCb where
  | clearHandle
  | chainOut (pos : Int × Int)
deriving DecidableEq

/-- A stored tween handle. -/
structure TweenRec where
  id : Nat
  kind : TweenKind
  cb : CompleteCb
deriving DecidableEq

/-- The tween-table state for one curtain element, plus a counter supplying
fresh engine-tween identities. -/
structure TweenState where
  handle : Option TweenRec
  nextId : Nat
deriving DecidableEq

/-- One observable call into the animation engine or into user code. -/
inductive EngineCall where
  | kill (id : Nat)
  | fromTo (id : Nat) (fromPos toPos : Int × Int)
  | toTween (id : Nat) (pos : Int × Int)
  | setOnComplete (id : Nat) (cb : CompleteCb)
  | callback (name : String)
deriving DecidableEq

/-- dirHoverHandler from dirHover.handlers.ts lines 6-46, for a non-null
curtain, with the direction already resolved by getDirection. For action
in: kill the stored handle when one exists, then gsap.fromTo from the
computed offset to the origin, storing the new handle whose completion
deletes the entry. Otherwise: when a handle is stored, reassign its
onComplete to chain the out tween after it without cancelling it; when no
handle is stored, gsap.to the offset directly and store that handle. -/
def dirHoverHandler (action : String) (direction : String) (s : TweenState) :
    TweenState × List EngineCall :=
  let position := getPositionFromSide direction
  if action = "in" then
    let killCalls :=
      match s.handle with
      | some t => [EngineCall.kill t.id]
      | none => []
    ({ handle := some { id := s.nextId, kind := TweenKind.animIn, cb := CompleteCb.clearHandle }
       nextId := s.nextId + 1 },
     killCalls ++ [EngineCall.fromTo s.nextId position (0, 0)])
  else
    match s.handle with
    | some t =>
      ({ handle := some { id := t.id, kind := t.kind, cb := CompleteCb.chainOut position }
         nextId := s.nextId },
       [EngineCall.setOnComplete t.id (CompleteCb.chainOut position)])
    | none =>
      ({ handle := some { id := s.nextId, kind := TweenKind.animOut, cb := CompleteCb.clearHandle }
         nextId := s.nextId + 1 },
       [EngineCall.toTween s.nextId position])

/-- The animation engine fires the completion of the stored tween: its
installed callback body runs. clearHandle deletes the table entry; chainOut
starts the out tween toward its captured position, stores it, and that out
tween deletes the entry on its own completion. -/
def fireComplete (s : TweenState) : TweenState × List EngineCall :=
  match s.handle with
  | none => (s, [])
  | some t =>
    match t.cb with
    | CompleteCb.clearHandle => ({ handle := none, nextId := s.nextId }, [])
    | CompleteCb.chainOut pos =>
      ({ handle := some { id := s.nextId, kind := TweenKind.animOut, cb := CompleteCb.clearHandle }
         nextId := s.nextId + 1 },
       [EngineCall.toTween s.nextId pos])

/-! The listener objects of the attach function (dirHover.utils.ts lines
229-246). Each listener body runs synchronously: it invokes the handler
when the curtain exists, then invokes the user callback when one was
supplied; the returned list is the synchronous trace of that body, in
order. The mouse listeners resolve the direction through detectSide on the
event and host rect; the touch listeners use the configured fixed edges. -/

/-- The wrapped handler invocation plus the optional user callback. -/
def listenerBody (curtainPresent : Bool) (action direction : String)
    (callbackProvided : Bool) (callbackName : String) (s : TweenState) :
    TweenState × List EngineCall :=
  let (s1, tr) :=
    if curtainPresent then dirHoverHandler action direction s else (s, [])
  (s1, tr ++ (if callbackProvided then [EngineCall.callback callbackName] else []))

/-- The mouseenter listener; direction is detectSide of the pointer
relative to the host rect. -/
def mouseenterListener (curtainPresent : Bool) (x y w h : ℚ)
    (u : DirectionalHoverOptions) (s : TweenState) :
    TweenState × List EngineCall :=
  listenerBody curtainPresent "in" (detectSide x y w h) u.onEnter "onEnter" s

/-- The mouseleave listener. -/
def mouseleaveListener (curtainPresent : Bool) (x y w h : ℚ)
    (u : DirectionalHoverOptions) (s : TweenState) :
    TweenState × List EngineCall :=
  listenerBody curtainPresent "out" (detectSide x y w h) u.onLeave "onLeave" s

/-- The touchstart listener; direction is the configured touch start
edge. -/
def touchstartListener (curtainPresent : Bool)
    (u : DirectionalHoverOptions) (s : TweenState) :
    TweenState × List EngineCall :=
  listenerBody curtainPresent "in" (mergeOptions u).touchPosition.start
    u.onEnter "onEnter" s

/-- The touchend listener; direction is the configured touch end edge. -/
def touchendListener (curtainPresent : Bool)
    (u : DirectionalHoverOptions) (s : TweenState) :
    TweenState × List EngineCall :=
  listenerBody curtainPresent "out" (mergeOptions u).touchPosition.«end»
    u.onLeave "onLeave" s

/-! ### Theorems -/

/-- Reduction of the entries fold of detectSide to a nested conditional. -/
theorem detectSide_ite (x y w h : ℚ) :
    detectSide x y w h =
      (if w - x < x then
        (if y < w - x then (if h - y < y then "bottom" else "top")
         else (if h - y < w - x then "bottom" else "right"))
       else
        (if y < x then (if h - y < y then "bottom" else "top")
         else (if h - y < x then "bottom" else "left"))) := by
  unfold detectSide distances
  simp only [List.foldl_cons, List.foldl_nil]
  norm_num
  by_cases h1 : w - x < x <;>
    simp only [if_pos, if_neg, h1, if_true, if_false, ite_true, ite_false]
  · by_cases h2 : y < w - x <;> simp [h1, h2]
  · by_cases h2 : y < x <;> simp [h1, h2]

/-- detectSide agrees with the minimum-distance rule of the spec, with ties
broken left over right over top over bottom, on all inputs. -/
theorem detectSide_eq_nearestEdgeSpec (x y w h : ℚ) :
    detectSide x y w h = nearestEdgeSpec x y w h := by
  rw [detectSide_ite]
  unfold nearestEdgeSpec
  by_cases h1 : w - x < x
  · rw [if_pos h1]
    by_cases h2 : y < w - x
    · rw [if_pos h2]
      by_cases h3 : h - y < y
      · rw [if_pos h3, if_neg (by rintro ⟨hA, hB, hC⟩; linarith),
            if_neg (by rintro ⟨hA, hB⟩; linarith), if_neg (by linarith)]
      · rw [if_neg h3, if_neg (by rintro ⟨hA, hB, hC⟩; linarith),
            if_neg (by rintro ⟨hA, hB⟩; linarith), if_pos (by linarith)]
    · rw [if_neg h2]
      by_cases h3 : h - y < w - x
      · rw [if_pos h3, if_neg (by rintro ⟨hA, hB, hC⟩; linarith),
            if_neg (by rintro ⟨hA, hB⟩; linarith), if_neg (by linarith)]
      · rw [if_neg h3, if_neg (by rintro ⟨hA, hB, hC⟩; linarith),
            if_pos ⟨by linarith, by linarith⟩]
  · rw [if_neg h1]
    by_cases h2 : y < x
    · rw [if_pos h2]
      by_cases h3 : h - y < y
      · rw [if_pos h3, if_neg (by rintro ⟨hA, hB, hC⟩; linarith),
            if_neg (by rintro ⟨hA, hB⟩; linarith), if_neg (by linarith)]
      · rw [if_neg h3, if_neg (by rintro ⟨hA, hB, hC⟩; linarith),
            if_neg (by rintro ⟨hA, hB⟩; linarith), if_pos (by linarith)]
    · rw [if_neg h2]
      by_cases h3 : h - y < x
      · rw [if_pos h3, if_neg (by rintro ⟨hA, hB, hC⟩; linarith),
            if_neg (by rintro ⟨hA, hB⟩; linarith), if_neg (by linarith)]
      · rw [if_neg h3, if_pos ⟨by linarith, by linarith, by linarith⟩]

/-- nearestEdgeSpec only ever produces one of the four edge names. -/
theorem nearestEdgeSpec_mem (x y w h : ℚ) :
    nearestEdgeSpec x y w h = "left" ∨ nearestEdgeSpec x y w h = "right" ∨
    nearestEdgeSpec x y w h = "top" ∨ nearestEdgeSpec x y w h = "bottom" := by
  unfold nearestEdgeSpec
  split_ifs <;> simp

/-- Claim C1: for every pointer coordinate (x, y) with 0 ≤ x ≤ width and
0 ≤ y ≤ height, detectSide returns exactly one of left, right, top, bottom,
namely the edge whose distance (x for left, width − x for right, y for top,
height − y for bottom) is minimal, with exact ties broken in the order left
over right over top over bottom; and for the rect of width 100 and height
200 with pointer (5, 50) it returns left. -/
theorem detectSide_nearest_edge (x y w h : ℚ)
    (hx0 : 0 ≤ x) (hxw : x ≤ w) (hy0 : 0 ≤ y) (hyh : y ≤ h) :
    (detectSide x y w h = "left" ∨ detectSide x y w h = "right" ∨
     detectSide x y w h = "top" ∨ detectSide x y w h = "bottom") ∧
    detectSide x y w h = nearestEdgeSpec x y w h ∧
    detectSide 5 50 100 200 = "left" := by
  refine ⟨?_, detectSide_eq_nearestEdgeSpec x y w h, ?_⟩
  · rw [detectSide_eq_nearestEdgeSpec]
    exact nearestEdgeSpec_mem x y w h
  · rw [detectSide_ite]
    norm_num

/-- Witness for claim C1 at the documented example input. -/
theorem detectSide_nearest_edge_witness :
    detectSide 5 50 100 200 = "left" :=
  (detectSide_nearest_edge 5 50 100 200 (by norm_num) (by norm_num)
    (by norm_num) (by norm_num)).2.2

/-- Claim C2: getPositionFromSide is a pure total function with the table
left ↦ (-101, 0), right ↦ (101, 0), top ↦ (0, -101), bottom ↦ (0, 101),
center ↦ (0, 0), and every input outside these five cases yields the
bottom offset (0, 101). -/
theorem getPositionFromSide_table :
    getPositionFromSide "left" = (-101, 0) ∧
    getPositionFromSide "right" = (101, 0) ∧
    getPositionFromSide "top" = (0, -101) ∧
    getPositionFromSide "bottom" = (0, 101) ∧
    getPositionFromSide "center" = (0, 0) ∧
    ∀ s : String, s ≠ "left" → s ≠ "right" → s ≠ "top" → s ≠ "bottom" →
      s ≠ "center" → getPositionFromSide s = (0, 101) := by
  refine ⟨rfl, rfl, rfl, rfl, rfl, ?_⟩
  intro s h1 h2 h3 h4 h5
  unfold getPositionFromSide
  rw [if_neg h1, if_neg h2, if_neg h3, if_neg h4, if_neg h5]

/-- Witness for claim C2 on an input outside the five named cases. -/
theorem getPositionFromSide_table_witness :
    getPositionFromSide "diagonal" = (0, 101) :=
  getPositionFromSide_table.2.2.2.2.2 "diagonal" (by decide) (by decide)
    (by decide) (by decide) (by decide)

/-- Claim C9: detectSide is total beyond the stated domain: for every
rational pointer coordinate and rectangle, including pointers outside the
rectangle and degenerate rectangles of zero or negative width or height, it
returns one of the four edge names, determined by the same
minimum-with-tie-break rule applied to the possibly negative distances. -/
theorem detectSide_total_safe (x y w h : ℚ) :
    (detectSide x y w h = "left" ∨ detectSide x y w h = "right" ∨
     detectSide x y w h = "top" ∨ detectSide x y w h = "bottom") ∧
    detectSide x y w h = nearestEdgeSpec x y w h := by
  refine ⟨?_, detectSide_eq_nearestEdgeSpec x y w h⟩
  rw [detectSide_eq_nearestEdgeSpec]
  exact nearestEdgeSpec_mem x y w h

/-- Claim C7: for every partial user options object the merged configuration
is deep-merged over the defaults shallowly per sub-object: every field of
animation, overlay and touchPosition not supplied by the user equals its
default (duration 0.125, ease power2.out, background the soft dark
translucent rgba(30, 30, 40, 0.12), opacity 1, mixBlendMode normal,
touchPosition start bottom and end top), and every supplied field overrides
exactly that default. Each getD equality states both directions at once:
an absent field yields the stated default literal and a present field
yields the supplied value. -/
theorem mergeOptions_defaults (u : DirectionalHoverOptions) :
    (mergeOptions u).animation.duration =
      ((u.animation.bind fun a => a.duration).getD 0.125) ∧
    (mergeOptions u).animation.ease =
      ((u.animation.bind fun a => a.ease).getD "power2.out") ∧
    (mergeOptions u).overlay.background =
      ((u.overlay.bind fun o => o.background).getD "rgba(30, 30, 40, 0.12)") ∧
    (mergeOptions u).overlay.opacity =
      ((u.overlay.bind fun o => o.opacity).getD 1) ∧
    (mergeOptions u).overlay.mixBlendMode =
      ((u.overlay.bind fun o => o.mixBlendMode).getD "normal") ∧
    (mergeOptions u).touchPosition.start =
      ((u.touchPosition.bind fun t => t.start).getD "bottom") ∧
    (mergeOptions u).touchPosition.«end» =
      ((u.touchPosition.bind fun t => t.«end»).getD "top") := by
  obtain ⟨a, o, t, pa, ca, cua, pc, cc, cuc, oe, ol⟩ := u
  refine ⟨?_, ?_, ?_, ?_, ?_, ?_, ?_⟩
  · rcases a with _ | ⟨ad, ae⟩
    · rfl
    · rcases ad with _ | d <;> rfl
  · rcases a with _ | ⟨ad, ae⟩
    · rfl
    · rcases ae with _ | e <;> rfl
  · rcases o with _ | ⟨ob, op, om⟩
    · rfl
    · rcases ob with _ | b <;> rfl
  · rcases o with _ | ⟨ob, op, om⟩
    · rfl
    · rcases op with _ | p <;> rfl
  · rcases o with _ | ⟨ob, op, om⟩
    · rfl
    · rcases om with _ | m <;> rfl
  · rcases t with _ | ⟨ts, te⟩
    · rfl
    · rcases ts with _ | s <;> rfl
  · rcases t with _ | ⟨ts, te⟩
    · rfl
    · rcases te with _ | e <;> rfl

/-- Appending to the empty string is the identity. -/
theorem string_empty_append (s : String) : "" ++ s = s := by
  cases s
  rfl

/-- The parent mutations never touch the host content. -/
theorem prepareParent_content (u : DirectionalHoverOptions) (node : HostElem) :
    (prepareParent u node).content = node.content := by
  unfold prepareParent
  rcases hpc : u.parentClass with _ | c <;> rcases hpa : u.parentAttrs with _ | l <;>
    simp [hpc, hpa] <;> by_cases hc : c = "" <;> simp [hc]

/-- The guarded removal of the cleanup closure never throws. -/
theorem removeIfContains_ok (content : List DomNode) (e : Option Elem) :
    ∃ cs, removeIfContains content e = Except.ok cs := by
  unfold removeIfContains removeChild
  rcases e with _ | c
  · exact ⟨content, rfl⟩
  · by_cases hm : DomNode.elem c ∈ content
    · simp [hm]
    · simp [hm]

/-- The cleanup closure never throws on any host state and always leaves
the content equal to the captured snapshot. -/
theorem runTeardown_restores (td : Teardown) (node : HostElem) :
    ∃ n, runTeardown td node = Except.ok n ∧
      n.content = [DomNode.raw td.originalContent] := by
  unfold runTeardown
  obtain ⟨cs1, h1⟩ := removeIfContains_ok node.content td.child
  obtain ⟨cs2, h2⟩ := removeIfContains_ok cs1 td.curtain
  simp only [h1, h2]
  exact ⟨_, rfl, rfl⟩

/-- Claim C3: for every host element and every initial inner markup, empty
or not, running the attach action and then the returned cleanup restores
the host inner markup to exactly the snapshot taken immediately before the
attach replaced the content. -/
theorem attach_teardown_roundtrip (u : DirectionalHoverOptions) (node : HostElem) :
    ∃ td n, (dirhoverAttach true u node).teardown = some td ∧
      runTeardown td (dirhoverAttach true u node).node = Except.ok n ∧
      innerHTML n = innerHTML node := by
  obtain ⟨td, htd, horig⟩ : ∃ td, (dirhoverAttach true u node).teardown = some td ∧
      td.originalContent = innerHTML node := by
    refine ⟨_, rfl, ?_⟩
    show innerHTML (prepareParent u node) = innerHTML node
    unfold innerHTML
    rw [prepareParent_content]
  obtain ⟨n, hok, hcontent⟩ := runTeardown_restores td (dirhoverAttach true u node).node
  refine ⟨td, n, htd, hok, ?_⟩
  have hn : innerHTML n = td.originalContent := by
    unfold innerHTML
    rw [hcontent]
    simp [serializeNode, string_empty_append]
  rw [hn, horig]

/-- Claim C6: in an environment with no DOM the attach action returns
without change: it mutates nothing on the host, creates no element,
registers no listener and returns no cleanup closure, so there is no
teardown to invoke; createDirHoverElements likewise returns null. -/
theorem ssr_attach_noop (u : DirectionalHoverOptions) (node : HostElem)
    (tag : String) (attrs : List (String × String)) (html : Option String)
    (styles : List (String × String)) (className : Option String) :
    dirhoverAttach false u node =
      { node := node, teardown := none, initialOffset := none } ∧
    createDirHoverElements false tag attrs html styles className = none :=
  ⟨rfl, rfl⟩

/-- Claim C10: the cleanup closure is robust to prior external removal of
the injected nodes: it checks containment before each removeChild, so on
every host state, in particular after the child or the curtain or both have
been externally detached, it does not throw and still restores the captured
original inner markup. -/
theorem teardown_robust (td : Teardown) (node : HostElem) :
    ∃ n, runTeardown td node = Except.ok n ∧
      innerHTML n = td.originalContent := by
  obtain ⟨n, hok, hcontent⟩ := runTeardown_restores td node
  refine ⟨n, hok, ?_⟩
  unfold innerHTML
  rw [hcontent]
  simp [serializeNode, string_empty_append]

/-- Claim C4: for every curtain the tween table stores at most one handle
at any instant (the table state per curtain is a single optional slot, and
every transition below stores at most one), and the enter transition,
whenever a handle exists — of either kind, in particular one running an out
animation — first kills it and only then starts the new in tween from the
computed offset toward the origin, storing exactly that one new handle,
whose completion clears the table entry. -/
theorem enter_cancels_then_starts (s : TweenState) (t : TweenRec) (d : String)
    (h : s.handle = some t) :
    (dirHoverHandler "in" d s).2 =
      [EngineCall.kill t.id,
       EngineCall.fromTo s.nextId (getPositionFromSide d) (0, 0)] ∧
    (dirHoverHandler "in" d s).1.handle =
      some { id := s.nextId, kind := TweenKind.animIn, cb := CompleteCb.clearHandle } ∧
    (fireComplete (dirHoverHandler "in" d s).1).1.handle = none := by
  unfold dirHoverHandler fireComplete
  rw [h]
  simp

/-- Witness for claim C4: an enter while an out tween holds the handle
kills it before starting the new in tween. -/
theorem enter_cancels_then_starts_witness :
    (dirHoverHandler "in" "left"
      { handle := some { id := 0, kind := TweenKind.animOut, cb := CompleteCb.clearHandle }
        nextId := 1 }).2 =
      [EngineCall.kill 0, EngineCall.fromTo 1 (-101, 0) (0, 0)] :=
  (enter_cancels_then_starts _ _ "left" rfl).1

/-- Claim C5: the leave transition never kills a tween, on any state; when
a handle running an in animation exists, the out tween is not started
inside the listener — the only engine call is the reassignment of the
completion callback — and the out tween starts exactly when that completion
fires, after which the stored handle is the out tween whose own completion
clears the entry; when no handle exists the out tween starts directly. -/
theorem leave_chains_never_cancels (s : TweenState) (t : TweenRec) (d : String)
    (h : s.handle = some t) (hk : t.kind = TweenKind.animIn) :
    (∀ s2 : TweenState, ∀ d2 : String, ∀ i : Nat,
        EngineCall.kill i ∉ (dirHoverHandler "out" d2 s2).2) ∧
    (dirHoverHandler "out" d s).2 =
      [EngineCall.setOnComplete t.id (CompleteCb.chainOut (getPositionFromSide d))] ∧
    (dirHoverHandler "out" d s).1.handle =
      some { id := t.id, kind := t.kind, cb := CompleteCb.chainOut (getPositionFromSide d) } ∧
    (fireComplete (dirHoverHandler "out" d s).1).2 =
      [EngineCall.toTween s.nextId (getPositionFromSide d)] ∧
    (fireComplete (dirHoverHandler "out" d s).1).1.handle =
      some { id := s.nextId, kind := TweenKind.animOut, cb := CompleteCb.clearHandle } ∧
    (∀ s0 : TweenState, ∀ d0 : String, s0.handle = none →
        (dirHoverHandler "out" d0 s0).2 =
          [EngineCall.toTween s0.nextId (getPositionFromSide d0)]) := by
  refine ⟨?_, ?_, ?_, ?_, ?_, ?_⟩
  · intro s2 d2 i
    unfold dirHoverHandler
    rcases hs : s2.handle with _ | t2 <;> simp [hs]
  · unfold dirHoverHandler
    rw [h]
    simp
  · unfold dirHoverHandler
    rw [h]
    simp
  · unfold dirHoverHandler fireComplete
    rw [h]
    simp
  · unfold dirHoverHandler fireComplete
    rw [h]
    simp
  · intro s0 d0 h0
    unfold dirHoverHandler
    rw [h0]
    simp

/-- Witness for claim C5: a leave while an in tween holds the handle only
reassigns its completion callback. -/
theorem leave_chains_never_cancels_witness :
    (dirHoverHandler "out" "top"
      { handle := some { id := 3, kind := TweenKind.animIn, cb := CompleteCb.clearHandle }
        nextId := 7 }).2 =
      [EngineCall.setOnComplete 3 (CompleteCb.chainOut (0, -101))] :=
  (leave_chains_never_cancels _ _ "top" rfl rfl).2.1

/-- The handler never invokes a user callback itself. -/
theorem dirHoverHandler_no_callback (a d : String) (s : TweenState) (n : String) :
    (dirHoverHandler a d s).2.count (EngineCall.callback n) = 0 := by
  unfold dirHoverHandler
  by_cases ha : a = "in" <;> rcases hs : s.handle with _ | t <;> simp [ha, hs]

/-- Claim C8: for every enter and leave transition, mouse or touch, the
user-supplied onEnter or onLeave callback, when provided, is invoked
exactly once within the synchronous trace of the listener body, for every
tween-table state — so independently of whether or when any animation
completes. -/
theorem user_callbacks_sync_once (c : Bool) (x y w h : ℚ)
    (u : DirectionalHoverOptions) (s : TweenState)
    (hE : u.onEnter = true) (hL : u.onLeave = true) :
    (mouseenterListener c x y w h u s).2.count (EngineCall.callback "onEnter") = 1 ∧
    (mouseleaveListener c x y w h u s).2.count (EngineCall.callback "onLeave") = 1 ∧
    (touchstartListener c u s).2.count (EngineCall.callback "onEnter") = 1 ∧
    (touchendListener c u s).2.count (EngineCall.callback "onLeave") = 1 := by
  unfold mouseenterListener mouseleaveListener touchstartListener
    touchendListener listenerBody
  rcases c <;> simp [hE, hL, dirHoverHandler_no_callback]

/-- Witness for claim C8: with both callbacks supplied the touchstart
listener invokes onEnter exactly once. -/
theorem user_callbacks_sync_once_witness :
    (touchstartListener true
      { animation := none, overlay := none, touchPosition := none
        parentAttrs := none, childAttrs := none, curtainAttrs := none
        parentClass := none, childClass := none, curtainClass := none
        onEnter := true, onLeave := true }
      { handle := none, nextId := 0 }).2.count (EngineCall.callback "onEnter") = 1 :=
  (user_callbacks_sync_once true 0 0 0 0 _ _ rfl rfl).2.2.1

end DirHover
